import Mathlib

/-!
Verification of the FilmHub authentication core against its specification.

The definitions below are a shallow embedding of the TypeScript source:
  - `src/models/User.ts` — the account security state machine
    (`isLocked`, `incLoginAttempts`, `resetLoginAttempts`);
  - `src/utils/auths.ts` — token issue/verify (`generateToken`, `verifyToken`);
  - `src/handlers/index.ts` — the login orchestrator (`loginUser`) and
    password-reset request (`forgotPassword`);
  - `src/middleware/auth.ts` — the request gate (`authenticate`).

Timestamps are modelled as natural numbers (milliseconds since the epoch,
matching `Date.now()`); the JSON Web Token library stores second-resolution
times, but all claims concern only durations and orderings, which are
unit-uniform, so the model keeps a single millisecond clock throughout.
Database documents are modelled as immutable records and each mutating
method returns the updated record; `bcrypt.compare` is abstracted as a
boolean outcome `passwordOk` supplied by the environment, and the mongoose
`$unset` of a numeric field is modelled as resetting it to the schema
default 0.
-/

namespace FilmHub

/-- Lock duration constant from `incLoginAttempts`: `15 * 60 * 1000` ms. -/
def lockTimeMs : Nat := 15 * 60 * 1000

/-- Token lifetime from `generateToken` (`expiresIn: '2h'`), in ms. -/
def tokenLifeMs : Nat := 2 * 60 * 60 * 1000

/-- The security-relevant fields of a mongoose `User` document:
`_id`, `loginAttempts` (schema default 0) and the optional `lockUntil`. -/
structure UserDoc where
  id : String
  loginAttempts : Nat
  lockUntil : Option Nat
deriving DecidableEq, Repr

/-- `userSchema.methods.isLocked`: true iff `lockUntil` exists and
`lockUntil.getTime() > Date.now()`. -/
def UserDoc.isLocked (u : UserDoc) (now : Nat) : Bool :=
  match u.lockUntil with
  | some t => now < t
  | none => false

/-- `userSchema.methods.incLoginAttempts`: if the lock has expired
(`lockUntil.getTime() < Date.now()`), `$unset` both fields; otherwise
increment `loginAttempts` and, when the new count reaches 5, also set
`lockUntil = now + 15 minutes`. -/
def UserDoc.incLoginAttempts (u : UserDoc) (now : Nat) : UserDoc :=
  match u.lockUntil with
  | some t =>
    if t < now then
      { u with loginAttempts := 0, lockUntil := none }
    else
      let newAttempts := u.loginAttempts + 1
      if 5 ≤ newAttempts then
        { u with loginAttempts := newAttempts, lockUntil := some (now + lockTimeMs) }
      else
        { u with loginAttempts := newAttempts }
  | none =>
    let newAttempts := u.loginAttempts + 1
    if 5 ≤ newAttempts then
      { u with loginAttempts := newAttempts, lockUntil := some (now + lockTimeMs) }
    else
      { u with loginAttempts := newAttempts }

/-- `userSchema.methods.resetLoginAttempts`: `$unset` both security fields. -/
def UserDoc.resetLoginAttempts (u : UserDoc) : UserDoc :=
  { u with loginAttempts := 0, lockUntil := none }

/-- A signed JSON Web Token as produced by `jwt.sign(payload, secret,
{ expiresIn: '2h' })`: the payload id, issue and expiry instants, and the
secret it was signed with (standing for the signature). -/
structure Token where
  id : String
  iat : Nat
  exp : Nat
  sig : String
deriving DecidableEq, Repr

/-- `generateToken` from `src/utils/auths.ts`: throws when `JWT_SECRET` is
absent, otherwise signs `{ id }` with expiry two hours after issuance. -/
def generateToken (secret : Option String) (payloadId : String) (now : Nat) :
    Except String Token :=
  match secret with
  | none => .error "JWT_SECRET environment variable is not defined"
  | some s => .ok { id := payloadId, iat := now, exp := now + tokenLifeMs, sig := s }

/-- The ways `verifyToken` can throw: a missing `JWT_SECRET` (plain
`Error`), a `JsonWebTokenError` for a bad signature, or a
`TokenExpiredError`. -/
inductive VerifyErr where
  | missingSecret
  | invalidSignature
  | expired
deriving DecidableEq, Repr

/-- `verifyToken` from `src/utils/auths.ts`: throws when `JWT_SECRET` is
absent; otherwise `jwt.verify` checks the signature first and then the
expiry (expired once the clock reaches `exp`), returning the decoded id. -/
def verifyToken (secret : Option String) (tok : Token) (now : Nat) :
    Except VerifyErr String :=
  match secret with
  | none => .error .missingSecret
  | some s =>
    if tok.sig ≠ s then .error .invalidSignature
    else if tok.exp ≤ now then .error .expired
    else .ok tok.id

/-- An HTTP response: status code plus the JSON body as key/value pairs. -/
structure HttpResponse where
  status : Nat
  body : List (String × String)
deriving DecidableEq, Repr

/-- The response of `loginUser`: either an error JSON with a status, or the
200 success payload carrying the token, user profile and redirect. -/
inductive LoginResponse where
  | failure (status : Nat) (error : String)
  | success (status : Nat) (token : Token) (userId : String) (redirect : String)
deriving DecidableEq, Repr

/-- `loginUser` from `src/handlers/index.ts`. Inputs: the configured
secret, the clock, the result of `User.findOne({ email })`, and the
outcome of `checkPassword`. Output: the HTTP response together with the
persisted state of the account document (none when no account matched).
Unknown user → 401; wrong password → `incLoginAttempts` then 401; valid
password → `resetLoginAttempts` when `loginAttempts > 0`, then
`generateToken` (a throw is caught as a 500) and the 200 payload. -/
def loginUser (secret : Option String) (now : Nat) (found : Option UserDoc)
    (passwordOk : Bool) : LoginResponse × Option UserDoc :=
  match found with
  | none => (.failure 401 "Invalid email or password", none)
  | some user =>
    if !passwordOk then
      (.failure 401 "Invalid email or password", some (user.incLoginAttempts now))
    else
      let user1 := if 0 < user.loginAttempts then user.resetLoginAttempts else user
      match generateToken secret user.id now with
      | .error _ => (.failure 500 "Try again later", some user1)
      | .ok token => (.success 200 token user.id "/mainDashBoard.html", some user1)

/-- `forgotPassword` from `src/handlers/index.ts`, as a function of the
result of `User.findOne({ email })`: unknown email → 404 with an error
message; known email → the confirmation email is sent and `res.json`
replies 200 with an instruction message. -/
def forgotPassword (found : Option UserDoc) : HttpResponse :=
  match found with
  | none => { status := 404, body := [("error", "There is no user with that email")] }
  | some _ => { status := 200, body := [("msg", "We have sent an email with instructions")] }

/-- The credential material reaching `authenticate`: no `Authorization`
header at all, a header whose split yields no token, or a bearer token. -/
inductive AuthInput where
  | noHeader
  | emptyToken
  | withToken (tok : Token)
deriving DecidableEq, Repr

/-- The outcome of the `authenticate` middleware: an HTTP response sent to
the caller, a call to `next()` with the resolved user attached, or the
fall-through path where the handler returns without responding (reached
when `jwt.verify` yields a payload whose `id` is falsy). -/
inductive AuthOutcome where
  | respond (r : HttpResponse)
  | proceed (userId : String)
  | noResponse
deriving DecidableEq, Repr

/-- `authenticate` from `src/middleware/auth.ts`. Missing header or empty
token → 401 Unauthorized. Otherwise `verifyToken`: a `TokenExpiredError`
is caught as 401 "Token expired", any other throw (bad signature, missing
secret) as 401 "Invalid token". On success the subject is looked up with
`User.findById`; a missing user yields 404 "User does not exist", a found
user is attached and `next()` runs. -/
def authenticate (secret : Option String) (now : Nat) (input : AuthInput)
    (findById : String → Option UserDoc) : AuthOutcome :=
  match input with
  | .noHeader => .respond { status := 401, body := [("error", "Unauthorized")] }
  | .emptyToken => .respond { status := 401, body := [("error", "Unauthorized")] }
  | .withToken tok =>
    match verifyToken secret tok now with
    | .error .expired =>
      .respond { status := 401, body := [("error", "Token expired"), ("redirect", "/login")] }
    | .error _ =>
      .respond { status := 401, body := [("error", "Invalid token"), ("redirect", "/login")] }
    | .ok uid =>
      if uid = "" then .noResponse
      else
        match findById uid with
        | none => .respond { status := 404, body := [("error", "User does not exist")] }
        | some _ => .proceed uid

/-- C1. The spec requires every login attempt on a Locked account
(`lockedUntil` in the future) to be rejected with `AccountLocked` before
the password is checked, with no token issued even for a correct password.
The code never consults `isLocked` in `loginUser`: on a locked account with
the correct password it issues the token and answers 200, contradicting
the model's own documentation of `isLocked` ("called before processing
login attempts", "prevents authentication when account is locked"). -/
theorem c1_locked_account_login_issues_token :
    UserDoc.isLocked { id := "u1", loginAttempts := 5, lockUntil := some 600000 } 0 = true ∧
    (loginUser (some "s") 0
        (some { id := "u1", loginAttempts := 5, lockUntil := some 600000 }) true).fst =
      .success 200 { id := "u1", iat := 0, exp := 0 + tokenLifeMs, sig := "s" }
        "u1" "/mainDashBoard.html" := by
  exact ⟨rfl, rfl⟩

/-- C2. From the Open state (`lockUntil` absent) with `failedAttempts = n`,
a failed password check increments the counter to `n + 1` and leaves the
account Open while `n + 1 < 5`; when `n + 1` reaches 5 it stores
`failedAttempts = 5` and `lockUntil = now + 15 minutes`, entering Locked. -/
theorem c2_failed_check_from_open (u : UserDoc) (now : Nat)
    (hopen : u.lockUntil = none) :
    (u.loginAttempts + 1 < 5 →
      (u.incLoginAttempts now).loginAttempts = u.loginAttempts + 1 ∧
      (u.incLoginAttempts now).lockUntil = none ∧
      (u.incLoginAttempts now).isLocked now = false) ∧
    (u.loginAttempts + 1 = 5 →
      (u.incLoginAttempts now).loginAttempts = 5 ∧
      (u.incLoginAttempts now).lockUntil = some (now + lockTimeMs) ∧
      (u.incLoginAttempts now).isLocked now = true) := by
  constructor
  · intro h
    have h5 : ¬ 5 ≤ u.loginAttempts + 1 := by omega
    simp [UserDoc.incLoginAttempts, hopen, h5, UserDoc.isLocked]
  · intro h
    have h5 : 5 ≤ u.loginAttempts + 1 := by omega
    simp [UserDoc.incLoginAttempts, hopen, h5, UserDoc.isLocked, lockTimeMs]
    omega

/-- Witness for C2 at a concrete account with four prior failures. -/
theorem c2_failed_check_from_open_witness :
    (({ id := "a", loginAttempts := 4, lockUntil := none } : UserDoc).lockUntil = none) ∧
    ((({ id := "a", loginAttempts := 4, lockUntil := none } : UserDoc).loginAttempts + 1 < 5 →
      (({ id := "a", loginAttempts := 4, lockUntil := none } : UserDoc).incLoginAttempts
          1000).loginAttempts =
        ({ id := "a", loginAttempts := 4, lockUntil := none } : UserDoc).loginAttempts + 1 ∧
      (({ id := "a", loginAttempts := 4, lockUntil := none } : UserDoc).incLoginAttempts
          1000).lockUntil = none ∧
      (({ id := "a", loginAttempts := 4, lockUntil := none } : UserDoc).incLoginAttempts
          1000).isLocked 1000 = false) ∧
    (({ id := "a", loginAttempts := 4, lockUntil := none } : UserDoc).loginAttempts + 1 = 5 →
      (({ id := "a", loginAttempts := 4, lockUntil := none } : UserDoc).incLoginAttempts
          1000).loginAttempts = 5 ∧
      (({ id := "a", loginAttempts := 4, lockUntil := none } : UserDoc).incLoginAttempts
          1000).lockUntil = some (1000 + lockTimeMs) ∧
      (({ id := "a", loginAttempts := 4, lockUntil := none } : UserDoc).incLoginAttempts
          1000).isLocked 1000 = true)) :=
  ⟨rfl, c2_failed_check_from_open { id := "a", loginAttempts := 4, lockUntil := none } 1000 rfl⟩

/-- C3 counterexample. Account with `failedAttempts = 5` and an elapsed
lock (`lockUntil = 1000`, clock at 2000): a wrong password stores
`failedAttempts = 0` (both fields `$unset`), not the fresh first failure
`failedAttempts = 1` the claim requires. -/
theorem c3_elapsed_lock_counterexample :
    (loginUser (some "s") 2000
        (some { id := "u1", loginAttempts := 5, lockUntil := some 1000 }) false).snd =
      some { id := "u1", loginAttempts := 0, lockUntil := none } ∧
    ((loginUser (some "s") 2000
        (some { id := "u1", loginAttempts := 5, lockUntil := some 1000 }) false).snd.map
        UserDoc.loginAttempts ≠ some 1) := by
  exact ⟨rfl, by decide⟩

/-- C3 amended. On a login attempt against an account whose `lockUntil`
has elapsed, a wrong password clears both fields — `failedAttempts`
becomes 0 (the triggering failure is not counted as a first failure) —
and a correct password (with `failedAttempts > 0`) succeeds normally,
clearing both fields. -/
theorem c3_elapsed_lock_clears_counters (secret : String) (now t : Nat) (u : UserDoc)
    (hlock : u.lockUntil = some t) (helapsed : t < now) :
    (loginUser (some secret) now (some u) false).snd =
      some { u with loginAttempts := 0, lockUntil := none } ∧
    (0 < u.loginAttempts →
      (loginUser (some secret) now (some u) true).fst =
        .success 200 { id := u.id, iat := now, exp := now + tokenLifeMs, sig := secret }
          u.id "/mainDashBoard.html" ∧
      (loginUser (some secret) now (some u) true).snd =
        some { u with loginAttempts := 0, lockUntil := none }) := by
  constructor
  · simp [loginUser, UserDoc.incLoginAttempts, hlock, helapsed]
  · intro h
    simp [loginUser, h, UserDoc.resetLoginAttempts, generateToken]

/-- Witness for C3 (amended) at the elapsed-lock account used above. -/
theorem c3_elapsed_lock_clears_counters_witness :
    (({ id := "u1", loginAttempts := 5, lockUntil := some 1000 } : UserDoc).lockUntil =
      some 1000) ∧ 1000 < 2000 ∧
    ((loginUser (some "s") 2000
        (some { id := "u1", loginAttempts := 5, lockUntil := some 1000 }) false).snd =
      some { id := "u1", loginAttempts := 0, lockUntil := none } ∧
    (0 < ({ id := "u1", loginAttempts := 5, lockUntil := some 1000 } : UserDoc).loginAttempts →
      (loginUser (some "s") 2000
          (some { id := "u1", loginAttempts := 5, lockUntil := some 1000 }) true).fst =
        .success 200 { id := "u1", iat := 2000, exp := 2000 + tokenLifeMs, sig := "s" }
          "u1" "/mainDashBoard.html" ∧
      (loginUser (some "s") 2000
          (some { id := "u1", loginAttempts := 5, lockUntil := some 1000 }) true).snd =
        some { id := "u1", loginAttempts := 0, lockUntil := none })) :=
  ⟨rfl, by decide,
    c3_elapsed_lock_clears_counters "s" 2000 1000
      { id := "u1", loginAttempts := 5, lockUntil := some 1000 } rfl (by decide)⟩

/-- C4 counterexample. The forgot-password responses are not identical:
an unknown email gets a 404 error body while a known email gets a 200
instruction body, so the handler does reveal account existence. -/
theorem c4_forgot_password_counterexample :
    forgotPassword (some { id := "u1", loginAttempts := 0, lockUntil := none }) ≠
      forgotPassword none := by
  decide

/-- C4 amended. The HTTP response of the forgot-password handler depends on
whether an account with the given email exists: absent → 404 with
"There is no user with that email"; present → 200 with "We have sent an
email with instructions"; the two responses differ. -/
theorem c4_forgot_password_reveals_existence (u : UserDoc) :
    forgotPassword none =
      { status := 404, body := [("error", "There is no user with that email")] } ∧
    forgotPassword (some u) =
      { status := 200, body := [("msg", "We have sent an email with instructions")] } ∧
    forgotPassword (some u) ≠ forgotPassword none := by
  refine ⟨rfl, rfl, fun hcontra => ?_⟩
  have hstatus := congrArg HttpResponse.status hcontra
  simp [forgotPassword] at hstatus

/-- C5 counterexample. A well-signed, unexpired token whose subject no
longer exists in the store is answered with status 404 ("User does not
exist"), not the 401 the claim requires for every Authenticate failure. -/
theorem c5_account_not_found_counterexample :
    authenticate (some "s") 0
        (.withToken { id := "u1", iat := 0, exp := tokenLifeMs, sig := "s" })
        (fun _ => none) =
      .respond { status := 404, body := [("error", "User does not exist")] } ∧
    (404 : Nat) ≠ 401 := by
  exact ⟨by decide, by decide⟩

/-- C5 amended. Unauthorized (missing header or empty token), InvalidToken
(bad signature) and TokenExpired are all mapped to 401 responses, while
AccountNotFound (valid token whose subject no longer exists) is mapped to
a 404 response. -/
theorem c5_authenticate_failure_statuses (secret : String) (now : Nat)
    (tokBad tokExp tokOk : Token) (findById : String → Option UserDoc)
    (hbad : tokBad.sig ≠ secret)
    (hexpSig : tokExp.sig = secret) (hexp : tokExp.exp ≤ now)
    (hokSig : tokOk.sig = secret) (hokFresh : now < tokOk.exp)
    (hokGone : findById tokOk.id = none) (hokId : tokOk.id ≠ "") :
    authenticate (some secret) now .noHeader findById =
      .respond { status := 401, body := [("error", "Unauthorized")] } ∧
    authenticate (some secret) now .emptyToken findById =
      .respond { status := 401, body := [("error", "Unauthorized")] } ∧
    authenticate (some secret) now (.withToken tokBad) findById =
      .respond { status := 401, body := [("error", "Invalid token"), ("redirect", "/login")] } ∧
    authenticate (some secret) now (.withToken tokExp) findById =
      .respond { status := 401, body := [("error", "Token expired"), ("redirect", "/login")] } ∧
    authenticate (some secret) now (.withToken tokOk) findById =
      .respond { status := 404, body := [("error", "User does not exist")] } := by
  have hfresh : ¬ tokOk.exp ≤ now := Nat.not_le.mpr hokFresh
  refine ⟨rfl, rfl, ?_, ?_, ?_⟩
  · simp [authenticate, verifyToken, hbad]
  · simp [authenticate, verifyToken, hexpSig, hexp]
  · simp [authenticate, verifyToken, hokSig, hfresh, hokGone, hokId]

/-- Witness for C5 (amended): a wrong-secret token, an expired token and a
fresh token for a deleted subject, all checked at clock 5000. -/
theorem c5_authenticate_failure_statuses_witness :
    (({ id := "u1", iat := 0, exp := 9000, sig := "x" } : Token).sig ≠ "s") ∧
    (({ id := "u1", iat := 0, exp := 1000, sig := "s" } : Token).sig = "s") ∧
    (({ id := "u1", iat := 0, exp := 1000, sig := "s" } : Token).exp ≤ 5000) ∧
    (({ id := "u1", iat := 0, exp := 9000, sig := "s" } : Token).sig = "s") ∧
    (5000 < ({ id := "u1", iat := 0, exp := 9000, sig := "s" } : Token).exp) ∧
    ((fun _ => (none : Option UserDoc)) ({ id := "u1", iat := 0, exp := 9000, sig := "s" } : Token).id = none) ∧
    (({ id := "u1", iat := 0, exp := 9000, sig := "s" } : Token).id ≠ "") ∧
    (authenticate (some "s") 5000 .noHeader (fun _ => none) =
      .respond { status := 401, body := [("error", "Unauthorized")] } ∧
    authenticate (some "s") 5000 .emptyToken (fun _ => none) =
      .respond { status := 401, body := [("error", "Unauthorized")] } ∧
    authenticate (some "s") 5000
        (.withToken { id := "u1", iat := 0, exp := 9000, sig := "x" }) (fun _ => none) =
      .respond { status := 401, body := [("error", "Invalid token"), ("redirect", "/login")] } ∧
    authenticate (some "s") 5000
        (.withToken { id := "u1", iat := 0, exp := 1000, sig := "s" }) (fun _ => none) =
      .respond { status := 401, body := [("error", "Token expired"), ("redirect", "/login")] } ∧
    authenticate (some "s") 5000
        (.withToken { id := "u1", iat := 0, exp := 9000, sig := "s" }) (fun _ => none) =
      .respond { status := 404, body := [("error", "User does not exist")] }) :=
  ⟨by decide, rfl, by decide, rfl, by decide, rfl, by decide,
    c5_authenticate_failure_statuses "s" 5000
      { id := "u1", iat := 0, exp := 9000, sig := "x" }
      { id := "u1", iat := 0, exp := 1000, sig := "s" }
      { id := "u1", iat := 0, exp := 9000, sig := "s" }
      (fun _ => none) (by decide) rfl (by decide) rfl (by decide) rfl (by decide)⟩

/-- C6 counterexample. With no signing secret configured, a single token
issue call and a single verify call each fail at call time with the
missing-secret error, refuting "a per-request token issue or verify call
never fails due to missing signing configuration"; nothing in the startup
path (`src/server.ts`) checks the secret. -/
theorem c6_missing_secret_counterexample :
    generateToken none "u1" 0 =
      .error "JWT_SECRET environment variable is not defined" ∧
    verifyToken none { id := "u1", iat := 0, exp := tokenLifeMs, sig := "s" } 0 =
      .error .missingSecret :=
  ⟨rfl, rfl⟩

/-- C6 amended. If no signing secret is configured, every per-request
token issue call and every verify call fails at call time with a
missing-secret error; there is no startup check, so the absence of a
secret is not fatal at process startup. -/
theorem c6_missing_secret_fails_per_call (payloadId : String) (now later : Nat)
    (tok : Token) :
    generateToken none payloadId now =
      .error "JWT_SECRET environment variable is not defined" ∧
    verifyToken none tok later = .error .missingSecret :=
  ⟨rfl, rfl⟩

/-- C7. A successful password check in the Open state with
`failedAttempts > 0` clears both security fields (the stored account ends
with `failedAttempts = 0` and no `lockUntil`) and the response carries the
freshly issued token. -/
theorem c7_success_resets_counters (secret : String) (now : Nat) (u : UserDoc)
    (_hopen : u.isLocked now = false) (hattempts : 0 < u.loginAttempts) :
    (loginUser (some secret) now (some u) true).snd =
      some { u with loginAttempts := 0, lockUntil := none } ∧
    (loginUser (some secret) now (some u) true).fst =
      .success 200 { id := u.id, iat := now, exp := now + tokenLifeMs, sig := secret }
        u.id "/mainDashBoard.html" := by
  constructor <;> simp [loginUser, hattempts, UserDoc.resetLoginAttempts, generateToken]

/-- Witness for C7: an open account with three prior failures. -/
theorem c7_success_resets_counters_witness :
    (({ id := "u1", loginAttempts := 3, lockUntil := none } : UserDoc).isLocked 0 = false) ∧
    (0 < ({ id := "u1", loginAttempts := 3, lockUntil := none } : UserDoc).loginAttempts) ∧
    ((loginUser (some "s") 0
        (some { id := "u1", loginAttempts := 3, lockUntil := none }) true).snd =
      some { id := "u1", loginAttempts := 0, lockUntil := none } ∧
    (loginUser (some "s") 0
        (some { id := "u1", loginAttempts := 3, lockUntil := none }) true).fst =
      .success 200 { id := "u1", iat := 0, exp := 0 + tokenLifeMs, sig := "s" }
        "u1" "/mainDashBoard.html") :=
  ⟨rfl, by decide,
    c7_success_resets_counters "s" 0
      { id := "u1", loginAttempts := 3, lockUntil := none } rfl (by decide)⟩

/-- C8. The login response for an identifier matching no account equals
the login response for an existing account with a wrong password: both are
the same 401 "Invalid email or password" failure, whatever the clock or
secret configuration of either run. -/
theorem c8_unknown_user_and_wrong_password_indistinguishable
    (secret1 secret2 : Option String) (now1 now2 : Nat) (pw : Bool) (u : UserDoc) :
    (loginUser secret1 now1 none pw).fst = (loginUser secret2 now2 (some u) false).fst ∧
    (loginUser secret1 now1 none pw).fst = .failure 401 "Invalid email or password" := by
  exact ⟨rfl, rfl⟩

/-- C9. A token issued for a subject embeds that subject with expiry
exactly two hours after issuance, verifies to the subject immediately
after issuance, and fails with the expired error at any time after the
lifetime elapses. -/
theorem c9_token_lifecycle (secret subjectId : String) (now later : Nat)
    (hlater : now + tokenLifeMs < later) :
    generateToken (some secret) subjectId now =
      .ok { id := subjectId, iat := now, exp := now + tokenLifeMs, sig := secret } ∧
    tokenLifeMs = 2 * 60 * 60 * 1000 ∧
    verifyToken (some secret)
        { id := subjectId, iat := now, exp := now + tokenLifeMs, sig := secret } now =
      .ok subjectId ∧
    verifyToken (some secret)
        { id := subjectId, iat := now, exp := now + tokenLifeMs, sig := secret } later =
      .error .expired := by
  refine ⟨rfl, rfl, ?_, ?_⟩
  · have hfresh : ¬ now + tokenLifeMs ≤ now := by
      simp only [tokenLifeMs]
      omega
    simp [verifyToken, hfresh]
  · have hpast : now + tokenLifeMs ≤ later := Nat.le_of_lt hlater
    simp [verifyToken, hpast]

/-- Witness for C9: subject "u1" issued at clock 0, re-checked one
millisecond after the lifetime. -/
theorem c9_token_lifecycle_witness :
    0 + tokenLifeMs < tokenLifeMs + 1 ∧
    (generateToken (some "s") "u1" 0 =
      .ok { id := "u1", iat := 0, exp := 0 + tokenLifeMs, sig := "s" } ∧
    tokenLifeMs = 2 * 60 * 60 * 1000 ∧
    verifyToken (some "s") { id := "u1", iat := 0, exp := 0 + tokenLifeMs, sig := "s" } 0 =
      .ok "u1" ∧
    verifyToken (some "s") { id := "u1", iat := 0, exp := 0 + tokenLifeMs, sig := "s" }
        (tokenLifeMs + 1) =
      .error .expired) :=
  ⟨by decide, c9_token_lifecycle "s" "u1" 0 (tokenLifeMs + 1) (by decide)⟩

/-- On a failed check, `incLoginAttempts` can only leave `lockUntil` set
when the attempt counter has reached the threshold of 5: the lock
invariant of the state machine is preserved by the increment path. -/
theorem incLoginAttempts_preserves_threshold (u : UserDoc) (now : Nat)
    (hinv : ∀ t0, u.lockUntil = some t0 → 5 ≤ u.loginAttempts) :
    ∀ t2, (u.incLoginAttempts now).lockUntil = some t2 →
      5 ≤ (u.incLoginAttempts now).loginAttempts := by
  intro t2 ht2
  rcases hu : u.lockUntil with _ | t0
  · simp only [UserDoc.incLoginAttempts, hu] at ht2 ⊢
    by_cases h5 : 5 ≤ u.loginAttempts + 1
    · simp [h5]
    · simp [h5, hu] at ht2
  · simp only [UserDoc.incLoginAttempts, hu] at ht2 ⊢
    by_cases helapsed : t0 < now
    · simp [helapsed] at ht2
    · by_cases h5 : 5 ≤ u.loginAttempts + 1
      · simp [helapsed, h5]
      · exfalso
        have := hinv t0 hu
        omega

/-- Lock invariant of the whole login flow: starting from an account in
which a set `lockUntil` implies `loginAttempts ≥ 5`, the account stored
back by `loginUser` satisfies the same implication, for every password
outcome, clock and secret configuration. Together with the fresh account
(`loginAttempts = 0`, no lock) this shows every reachable Locked state has
`loginAttempts ≥ 5`, the hypothesis used for claim C10. -/
theorem loginUser_preserves_lock_threshold (secret : Option String) (now : Nat)
    (u u2 : UserDoc) (pw : Bool)
    (hinv : ∀ t0, u.lockUntil = some t0 → 5 ≤ u.loginAttempts)
    (hstep : (loginUser secret now (some u) pw).snd = some u2) :
    ∀ t2, u2.lockUntil = some t2 → 5 ≤ u2.loginAttempts := by
  cases pw with
  | false =>
    have hu2 : u2 = u.incLoginAttempts now := by
      simp [loginUser] at hstep
      exact hstep.symm
    subst hu2
    exact incLoginAttempts_preserves_threshold u now hinv
  | true =>
    by_cases hpos : 0 < u.loginAttempts
    · have hu2 : u2 = u.resetLoginAttempts := by
        rcases hgen : generateToken secret u.id now with e | tok <;>
          simp [loginUser, hpos, hgen] at hstep <;> exact hstep.symm
      subst hu2
      intro t2 ht2
      simp [UserDoc.resetLoginAttempts] at ht2
    · have hu2 : u2 = u := by
        rcases hgen : generateToken secret u.id now with e | tok <;>
          simp [loginUser, hpos, hgen] at hstep <;> exact hstep.symm
      subst hu2
      exact hinv

/-- Witness for the lock-invariant preservation at a concrete step. -/
theorem loginUser_preserves_lock_threshold_witness :
    (∀ t0, ({ id := "u1", loginAttempts := 4, lockUntil := none } : UserDoc).lockUntil =
      some t0 → 5 ≤ ({ id := "u1", loginAttempts := 4, lockUntil := none } : UserDoc).loginAttempts) ∧
    ((loginUser (some "s") 1000
        (some { id := "u1", loginAttempts := 4, lockUntil := none }) false).snd =
      some { id := "u1", loginAttempts := 5, lockUntil := some (1000 + lockTimeMs) }) ∧
    (∀ t2, ({ id := "u1", loginAttempts := 5, lockUntil := some (1000 + lockTimeMs) } :
        UserDoc).lockUntil = some t2 →
      5 ≤ ({ id := "u1", loginAttempts := 5, lockUntil := some (1000 + lockTimeMs) } :
        UserDoc).loginAttempts) :=
  ⟨fun t0 h => by simp at h, by decide,
    loginUser_preserves_lock_threshold (some "s") 1000
      { id := "u1", loginAttempts := 4, lockUntil := none }
      { id := "u1", loginAttempts := 5, lockUntil := some (1000 + lockTimeMs) } false
      (fun t0 h => by simp at h) (by decide)⟩

/-- C10. While the account is Locked (`lockUntil = t` still in the future;
in every reachable such state `loginAttempts ≥ 4`, see
`loginUser_preserves_lock_threshold`), a further failed password check
increments the counter and re-sets `lockUntil` to `now + 15 minutes`,
which lies beyond the original expiry `t`, so the lock is extended and the
account stays Locked. -/
theorem c10_failed_check_while_locked_extends (u : UserDoc) (now t : Nat)
    (hlock : u.lockUntil = some t) (hfut : now < t) (hmax : 4 ≤ u.loginAttempts)
    (horig : t < now + lockTimeMs) :
    (u.incLoginAttempts now).loginAttempts = u.loginAttempts + 1 ∧
    (u.incLoginAttempts now).lockUntil = some (now + lockTimeMs) ∧
    (∀ t2, (u.incLoginAttempts now).lockUntil = some t2 → t < t2) ∧
    (u.incLoginAttempts now).isLocked now = true := by
  have hne : ¬ t < now := Nat.not_lt.mpr (Nat.le_of_lt hfut)
  have h5 : 5 ≤ u.loginAttempts + 1 := by omega
  have hinc : u.incLoginAttempts now =
      { u with loginAttempts := u.loginAttempts + 1,
               lockUntil := some (now + lockTimeMs) } := by
    simp [UserDoc.incLoginAttempts, hlock, hne, h5]
  rw [hinc]
  refine ⟨rfl, rfl, ?_, ?_⟩
  · intro t2 ht2
    have ht2e : now + lockTimeMs = t2 := Option.some.inj ht2
    omega
  · have hpos : 0 < lockTimeMs := by decide
    simp only [UserDoc.isLocked, decide_eq_true_eq]
    omega

/-- Witness for C10: a locked account at five failures, lock expiring at
100, clock at 50. -/
theorem c10_failed_check_while_locked_extends_witness :
    (({ id := "u1", loginAttempts := 5, lockUntil := some 100 } : UserDoc).lockUntil =
      some 100) ∧ 50 < 100 ∧
    (4 ≤ ({ id := "u1", loginAttempts := 5, lockUntil := some 100 } : UserDoc).loginAttempts) ∧
    100 < 50 + lockTimeMs ∧
    ((({ id := "u1", loginAttempts := 5, lockUntil := some 100 } : UserDoc).incLoginAttempts
        50).loginAttempts =
      ({ id := "u1", loginAttempts := 5, lockUntil := some 100 } : UserDoc).loginAttempts + 1 ∧
    (({ id := "u1", loginAttempts := 5, lockUntil := some 100 } : UserDoc).incLoginAttempts
        50).lockUntil = some (50 + lockTimeMs) ∧
    (∀ t2, (({ id := "u1", loginAttempts := 5, lockUntil := some 100 } :
        UserDoc).incLoginAttempts 50).lockUntil = some t2 → 100 < t2) ∧
    (({ id := "u1", loginAttempts := 5, lockUntil := some 100 } : UserDoc).incLoginAttempts
        50).isLocked 50 = true) :=
  ⟨rfl, by decide, by decide, by decide,
    c10_failed_check_while_locked_extends
      { id := "u1", loginAttempts := 5, lockUntil := some 100 } 50 100
      rfl (by decide) (by decide) (by decide)⟩

end FilmHub
